import Mathlib

/- Shallow embedding of the Light RJ RPA workers:
   src/actors/light-rj/src/main.ts (browser variant, Playwright) and
   src/actors/light-rj-http/src/main.ts (HTTP variant, axios + cheerio).
   Pure control-flow and data computations of the workers are reproduced as
   executable Lean functions; page observations, remote-service answers and
   per-match download outcomes are parameters (functions supplied by the
   environment), so that each theorem quantifies over every environment
   behaviour the code can encounter. -/

namespace RpaBots

/-- Response of the createTask call to api.anti-captcha.com
(light-rj main.ts lines 35-48, light-rj-http main.ts lines 16-29). -/
structure CreateTaskResponse where
  errorId : Int
  errorDescription : String
  taskId : Nat
deriving DecidableEq, Repr

/-- Response of one getTaskResult poll
(light-rj main.ts lines 57-68, light-rj-http main.ts lines 37-48). -/
structure TaskResultResponse where
  errorId : Int
  errorDescription : String
  status : String
  gRecaptchaResponse : String
deriving DecidableEq, Repr

/-- Terminal outcome of solveAntiCaptcha. -/
inductive SolverOutcome where
  | token (t : String)
  | creationError (desc : String)
  | taskError (desc : String)
  | timedOut
deriving DecidableEq, Repr

/-- Result of a solver run: the outcome, the number of getTaskResult calls made,
and the total milliseconds spent in the fixed setTimeout(3000) waits. -/
structure SolverRun where
  outcome : SolverOutcome
  polls : Nat
  waitedMs : Nat
deriving DecidableEq, Repr

/-- The poll budget: while (attempts < 200) in both variants. -/
def maxPollAttempts : Nat := 200

/-- Fixed poll interval: setTimeout(resolve, 3000) in both variants. -/
def pollIntervalMs : Nat := 3000

/-- The polling while-loop of solveAntiCaptcha (identical in both variants):
each iteration waits 3000 ms, increments attempts, calls getTaskResult, throws on a
non-zero errorId, returns the token when status is ready, otherwise loops.
svc k is the response to the k-th poll (k counted from 1); remaining is
200 minus the attempts already made; attempts and waited accumulate. -/
def pollLoop (svc : Nat → TaskResultResponse) : Nat → Nat → Nat → SolverRun
  | 0, attempts, waited => ⟨SolverOutcome.timedOut, attempts, waited⟩
  | remaining + 1, attempts, waited =>
    let a := attempts + 1
    let w := waited + pollIntervalMs
    let resp := svc a
    if resp.errorId ≠ 0 then ⟨SolverOutcome.taskError resp.errorDescription, a, w⟩
    else if resp.status = "ready" then ⟨SolverOutcome.token resp.gRecaptchaResponse, a, w⟩
    else pollLoop svc remaining a w

/-- solveAntiCaptcha (light-rj main.ts lines 32-79, light-rj-http main.ts lines 14-55):
throw when createTask answers with a non-zero errorId, otherwise run the poll loop
with the 200-attempt budget. The browser variant additionally wraps the body in a
try/catch that logs and rethrows, which does not change the outcome. -/
def solveAntiCaptcha (create : CreateTaskResponse) (svc : Nat → TaskResultResponse) :
    SolverRun :=
  if create.errorId ≠ 0 then ⟨SolverOutcome.creationError create.errorDescription, 0, 0⟩
  else pollLoop svc maxPollAttempts 0 0

theorem pollLoop_token_ok (svc : Nat → TaskResultResponse) :
    ∀ remaining attempts waited t,
      (pollLoop svc remaining attempts waited).outcome = SolverOutcome.token t →
      ∀ k, attempts < k → k ≤ (pollLoop svc remaining attempts waited).polls →
        (svc k).errorId = 0 := by
  intro remaining
  induction remaining with
  | zero =>
    intro attempts waited t h
    simp [pollLoop] at h
  | succ r ih =>
    intro attempts waited t h k hk1 hk2
    by_cases he : (svc (attempts + 1)).errorId = 0
    · by_cases hs : (svc (attempts + 1)).status = "ready"
      · have hp : (pollLoop svc (r + 1) attempts waited).polls = attempts + 1 := by
          simp [pollLoop, he, hs]
        have hk : k = attempts + 1 := by omega
        rw [hk]; exact he
      · have hrec : pollLoop svc (r + 1) attempts waited =
            pollLoop svc r (attempts + 1) (waited + pollIntervalMs) := by
          simp [pollLoop, he, hs]
        rcases Nat.lt_or_ge (attempts + 1) k with hlt | hge
        · rw [hrec] at h hk2
          exact ih (attempts + 1) (waited + pollIntervalMs) t h k hlt hk2
        · have hk : k = attempts + 1 := by omega
          rw [hk]; exact he
    · simp [pollLoop, he] at h

theorem pollLoop_allBusy (svc : Nat → TaskResultResponse)
    (hok : ∀ k, (svc k).errorId = 0 ∧ (svc k).status ≠ "ready") :
    ∀ remaining attempts waited,
      pollLoop svc remaining attempts waited =
        ⟨SolverOutcome.timedOut, attempts + remaining, waited + remaining * pollIntervalMs⟩ := by
  intro remaining
  induction remaining with
  | zero =>
    intro attempts waited
    simp [pollLoop]
  | succ r ih =>
    intro attempts waited
    have h1 := (hok (attempts + 1)).1
    have h2 := (hok (attempts + 1)).2
    have e1 : attempts + 1 + r = attempts + (r + 1) := by omega
    have e2 : waited + pollIntervalMs + r * pollIntervalMs =
        waited + (r + 1) * pollIntervalMs := by ring
    simp [pollLoop, h1, h2, ih, e1, e2]

/-- C3: the CAPTCHA solver never returns a solution token when the remote service
reported a non-zero errorId on the create-task call or on any poll it made, and when
the create call succeeds and every poll reports errorId 0 with a non-ready status it
raises the timeout error after exactly 200 polls, each preceded by the fixed
3000 ms wait. -/
theorem solveAntiCaptcha_c3 (create : CreateTaskResponse) (svc : Nat → TaskResultResponse) :
    (∀ t, (solveAntiCaptcha create svc).outcome = SolverOutcome.token t →
      create.errorId = 0 ∧
        ∀ k, 1 ≤ k → k ≤ (solveAntiCaptcha create svc).polls → (svc k).errorId = 0)
    ∧ (create.errorId = 0 →
        (∀ k, (svc k).errorId = 0 ∧ (svc k).status ≠ "ready") →
        solveAntiCaptcha create svc =
          ⟨SolverOutcome.timedOut, maxPollAttempts, maxPollAttempts * pollIntervalMs⟩) := by
  constructor
  · intro t h
    by_cases hc : create.errorId = 0
    · refine ⟨hc, ?_⟩
      intro k hk1 hk2
      have h0 : solveAntiCaptcha create svc = pollLoop svc maxPollAttempts 0 0 := by
        simp [solveAntiCaptcha, hc]
      rw [h0] at h hk2
      exact pollLoop_token_ok svc maxPollAttempts 0 0 t h k hk1 hk2
    · exfalso
      simp [solveAntiCaptcha, hc] at h
  · intro hc hok
    have h0 : solveAntiCaptcha create svc = pollLoop svc maxPollAttempts 0 0 := by
      simp [solveAntiCaptcha, hc]
    rw [h0, pollLoop_allBusy svc hok maxPollAttempts 0 0]
    simp

/-- C3 witness: a service whose create call succeeds and whose polls all answer
errorId 0 with status processing drives the solver to the timeout outcome after
exactly 200 polls and 600000 ms of fixed waits. -/
theorem solveAntiCaptcha_c3_witness :
    solveAntiCaptcha ⟨0, "", 7⟩ (fun _ => ⟨0, "", "processing", ""⟩) =
      ⟨SolverOutcome.timedOut, maxPollAttempts, maxPollAttempts * pollIntervalMs⟩ :=
  (solveAntiCaptcha_c3 ⟨0, "", 7⟩ (fun _ => ⟨0, "", "processing", ""⟩)).2 rfl
    (fun _ => ⟨rfl, by decide⟩)

/-- Observable events of the login retry loop of the browser variant. -/
inductive LoginEvent where
  | attemptStart (n : Nat)
  | attemptFailed (n : Nat)
  | delayMs (ms : Nat)
  | loginValidated (n : Nat)
deriving DecidableEq, Repr

/-- Terminal result of the login retry loop. -/
inductive LoginResult where
  | loggedIn (attemptsUsed : Nat)
  | failed (msg : String)
deriving DecidableEq, Repr

/-- const maxLoginAttempts = 3 (light-rj main.ts line 160). -/
def maxLoginAttempts : Nat := 3

/-- The login retry while-loop (light-rj main.ts lines 162-449):
while (!loginSuccess && loginAttempts < maxLoginAttempts) run one whole attempt
(navigate, fill, solve, submit, validate); att n tells whether attempt n succeeds.
On success the flag flips and the loop exits; on a failure of the final attempt the
catch block throws the aggregated error; on a failure of a non-final attempt the
catch waits 5000 ms and the loop re-enters. The fuel-zero case is the plain
while-guard exit; it is unreachable from runLogin because a failure of attempt 3
throws before the guard is re-evaluated. -/
def loginLoop (att : Nat → Bool) : Nat → Nat → LoginResult × List LoginEvent
  | _, 0 => (LoginResult.failed (""), [])
  | attempts, fuel + 1 =>
    let n := attempts + 1
    if att n then
      (LoginResult.loggedIn n, [LoginEvent.attemptStart n, LoginEvent.loginValidated n])
    else if maxLoginAttempts ≤ n then
      (LoginResult.failed ("Failed to login after 3 attempts."),
        [LoginEvent.attemptStart n, LoginEvent.attemptFailed n])
    else
      let rest := loginLoop att n fuel
      (rest.1, LoginEvent.attemptStart n :: LoginEvent.attemptFailed n ::
        LoginEvent.delayMs 5000 :: rest.2)

/-- Entry point of the retry loop: loginAttempts starts at 0. -/
def runLogin (att : Nat → Bool) : LoginResult × List LoginEvent :=
  loginLoop att 0 maxLoginAttempts

/-- Number of attempts started in an event trace. -/
def attemptCount (evs : List LoginEvent) : Nat :=
  (evs.filter (fun e => match e with | LoginEvent.attemptStart _ => true | _ => false)).length

/-- C2: the login retry loop starts at most 3 attempts; a successful attempt stops
the loop immediately with no further attempt; a failed non-final attempt is followed
by the fixed 5000 ms delay and a fresh attempt; and the single aggregated failure is
raised exactly when all 3 attempts fail. -/
theorem runLogin_c2 (att : Nat → Bool) :
    attemptCount (runLogin att).2 ≤ 3
    ∧ (att 1 = true → runLogin att =
        (LoginResult.loggedIn 1,
          [LoginEvent.attemptStart 1, LoginEvent.loginValidated 1]))
    ∧ (att 1 = false → att 2 = true → runLogin att =
        (LoginResult.loggedIn 2,
          [LoginEvent.attemptStart 1, LoginEvent.attemptFailed 1, LoginEvent.delayMs 5000,
            LoginEvent.attemptStart 2, LoginEvent.loginValidated 2]))
    ∧ (att 1 = false → att 2 = false → att 3 = true → runLogin att =
        (LoginResult.loggedIn 3,
          [LoginEvent.attemptStart 1, LoginEvent.attemptFailed 1, LoginEvent.delayMs 5000,
            LoginEvent.attemptStart 2, LoginEvent.attemptFailed 2, LoginEvent.delayMs 5000,
            LoginEvent.attemptStart 3, LoginEvent.loginValidated 3]))
    ∧ (att 1 = false → att 2 = false → att 3 = false → runLogin att =
        (LoginResult.failed ("Failed to login after 3 attempts."),
          [LoginEvent.attemptStart 1, LoginEvent.attemptFailed 1, LoginEvent.delayMs 5000,
            LoginEvent.attemptStart 2, LoginEvent.attemptFailed 2, LoginEvent.delayMs 5000,
            LoginEvent.attemptStart 3, LoginEvent.attemptFailed 3]))
    ∧ (∀ m, (runLogin att).1 = LoginResult.failed m →
        m = "Failed to login after 3 attempts."
          ∧ att 1 = false ∧ att 2 = false ∧ att 3 = false) := by
  cases h1 : att 1 <;> cases h2 : att 2 <;> cases h3 : att 3 <;>
    simp [runLogin, loginLoop, attemptCount, maxLoginAttempts, h1, h2, h3]

/-- C2 witness: with attempt 1 failing and attempt 2 succeeding, the loop runs
exactly two attempts separated by the 5000 ms delay and reports success. -/
theorem runLogin_c2_witness :
    runLogin (fun n => n == 2) =
      (LoginResult.loggedIn 2,
        [LoginEvent.attemptStart 1, LoginEvent.attemptFailed 1, LoginEvent.delayMs 5000,
          LoginEvent.attemptStart 2, LoginEvent.loginValidated 2]) :=
  (runLogin_c2 (fun n => n == 2)).2.2.1 rfl rfl

/-- Page state observed by the login validation block (light-rj main.ts lines 404-435):
whether the lowercased page URL contains login.aspx, whether the Bem vindo greeting is
visible, whether the credential input is still visible, and whether the
Feedback_Message_Error banner is visible (with its text). -/
structure LoginPageState where
  isLoginUrl : Bool
  hasWelcome : Bool
  hasLoginInput : Bool
  errorBannerVisible : Bool
  errorBannerText : String
deriving DecidableEq, Repr

/-- Result of the validation block. -/
inductive ValidationResult where
  | ok
  | error (msg : String)
deriving DecidableEq, Repr

/-- The login validation block (light-rj main.ts lines 404-435): check the explicit
error banner first and throw when it is visible; otherwise declare success when
isLoginUrl, hasWelcome, or the credential input being gone holds; otherwise capture
LOGIN_FAILURE_STATE.png and throw the validation failure. The second component lists
the diagnostic screenshots captured. (The enclosing catch rewraps any thrown message
as a Login validation error, which does not change which states fail.) -/
def validateLogin (st : LoginPageState) : ValidationResult × List String :=
  if st.errorBannerVisible then
    (ValidationResult.error ("Login failed: " ++ st.errorBannerText), [])
  else if st.isLoginUrl || st.hasWelcome || !st.hasLoginInput then
    (ValidationResult.ok, [])
  else
    (ValidationResult.error ("Login validation failed."), ["LOGIN_FAILURE_STATE.png"])

/-- C1 counterexample: in a page state where the error banner is visible while the
post-login URL signal holds, the validation block reports failure, so success is not
equivalent to the three-signal disjunction taken alone. -/
theorem validateLogin_c1_cex :
    (LoginPageState.mk true false false true ("erro")).isLoginUrl = true
    ∧ (validateLogin (LoginPageState.mk true false false true ("erro"))).1 ≠
        ValidationResult.ok := by
  decide

/-- C1 amended: the validation block declares success exactly when no error banner is
visible and at least one of the three signals holds, and in every state where all
three signals are absent and no banner is visible it raises the validation failure
after capturing the LOGIN_FAILURE_STATE.png diagnostic screenshot. -/
theorem validateLogin_c1 (st : LoginPageState) :
    ((validateLogin st).1 = ValidationResult.ok ↔
      st.errorBannerVisible = false
        ∧ (st.isLoginUrl = true ∨ st.hasWelcome = true ∨ st.hasLoginInput = false))
    ∧ (st.errorBannerVisible = false → st.isLoginUrl = false → st.hasWelcome = false →
        st.hasLoginInput = true →
        validateLogin st =
          (ValidationResult.error ("Login validation failed."),
            ["LOGIN_FAILURE_STATE.png"])) := by
  obtain ⟨u, w, i, b, t⟩ := st
  cases u <;> cases w <;> cases i <;> cases b <;> simp [validateLogin]

/-- C1 witness: in the all-signals-absent, no-banner state the block fails and
captures the diagnostic screenshot. -/
theorem validateLogin_c1_witness :
    validateLogin (LoginPageState.mk false false true false ("")) =
      (ValidationResult.error ("Login validation failed."), ["LOGIN_FAILURE_STATE.png"]) :=
  (validateLogin_c1 (LoginPageState.mk false false true false (""))).2 rfl rfl rfl rfl

/-- username.replace(/\D/g, "") : keep exactly the decimal digits. -/
def stripNonDigits (s : String) : String :=
  String.mk (s.toList.filter (fun c => c.isDigit))

/-- JS String.includes restricted to a single character needle. -/
def jsIncludes (s : String) (c : Char) : Bool :=
  s.toList.contains c

/-- JS String.prototype.trim: drop whitespace from both ends. -/
def jsTrim (s : String) : String :=
  String.mk (((s.toList.dropWhile Char.isWhitespace).reverse.dropWhile
    Char.isWhitespace).reverse)

/-- Browser variant username normalization (light-rj main.ts lines 178-181):
usernames without an at sign are reduced to their digits. -/
def normalizeUsernameBrowser (username : String) : String :=
  if !jsIncludes username '@' then stripNonDigits username else username

/-- HTTP variant username normalization (light-rj-http main.ts lines 82-86):
trim, then keep the raw string when it contains an at sign or when its digit
subsequence is shorter than half its length (the JS test digitsOnly.length <
rawUsername.length / 2 over integers is 2 * digitsOnly.length < rawUsername.length),
otherwise use the digit subsequence. -/
def normalizeUsernameHttp (username : String) : String :=
  let rawUsername := jsTrim username
  let digitsOnly := stripNonDigits rawUsername
  if jsIncludes rawUsername '@' || 2 * digitsOnly.length < rawUsername.length then
    rawUsername
  else digitsOnly

/-- C4 counterexample: the username abc1 contains no at sign, yet the HTTP variant
submits it unchanged rather than as its digit-only subsequence. -/
theorem normalizeUsername_c4_cex :
    jsIncludes ("abc1") '@' = false
    ∧ normalizeUsernameHttp ("abc1") ≠ stripNonDigits ("abc1")
    ∧ normalizeUsernameHttp ("abc1") = "abc1" := by
  refine ⟨rfl, ?_, rfl⟩
  decide

/-- C4 amended: for every username without an at sign the browser variant submits
the digit-only subsequence; the HTTP variant does so only when, after trimming, the
digit subsequence is at least half as long as the input, and otherwise submits the
trimmed input unchanged. -/
theorem normalizeUsername_c4 (u : String) :
    (jsIncludes u '@' = false → normalizeUsernameBrowser u = stripNonDigits u)
    ∧ (jsIncludes (jsTrim u) '@' = false →
        (jsTrim u).length ≤ 2 * (stripNonDigits (jsTrim u)).length →
        normalizeUsernameHttp u = stripNonDigits (jsTrim u))
    ∧ (jsIncludes (jsTrim u) '@' = false →
        2 * (stripNonDigits (jsTrim u)).length < (jsTrim u).length →
        normalizeUsernameHttp u = (jsTrim u)) := by
  refine ⟨fun h => by simp [normalizeUsernameBrowser, h], fun h1 h2 => ?_, fun h1 h2 => ?_⟩
  · have hlt : ¬(2 * (stripNonDigits (jsTrim u)).length < (jsTrim u).length) := by omega
    simp [normalizeUsernameHttp, h1, hlt]
  · simp [normalizeUsernameHttp, h1, h2]

/-- C4 witness: the spec scenario username 123.456.789-00 normalizes to its digits
12345678900 in both variants. -/
theorem normalizeUsername_c4_witness :
    normalizeUsernameBrowser ("123.456.789-00") = stripNonDigits ("123.456.789-00")
    ∧ normalizeUsernameHttp ("123.456.789-00") = stripNonDigits (jsTrim ("123.456.789-00")) :=
  ⟨(normalizeUsername_c4 ("123.456.789-00")).1 (by decide),
    (normalizeUsername_c4 ("123.456.789-00")).2.1 (by decide) (by decide)⟩

/-- A structured record pushed with Actor.pushData for a downloaded file. -/
structure ResultRecord where
  status : String
  file : String
  installation : String
  month : String
deriving DecidableEq, Repr

/-- referenceMonth.replace(/\//g, "-"): every slash becomes a dash. -/
def dashMonth (month : String) : String :=
  String.mk (month.toList.map (fun c => if c = '/' then '-' else c))

/-- Deterministic artifact key (light-rj main.ts lines 753, 810 and 837,
light-rj-http main.ts lines 566 and 617). -/
def invoiceKey (code month : String) (idx : Nat) : String :=
  "invoice_" ++ code ++ "_" ++ dashMonth month ++ "_" ++ toString idx ++ ".pdf"

/-- What the browser download loop observes for one month match: a download event
delivering a byte stream, no visible download control after all three locator
strategies, or no download event within the bound (inside or outside the modal
confirmation path). -/
inductive MatchOutcome where
  | downloaded (bytes : String)
  | noButton
  | eventTimeout (afterModal : Bool)
deriving DecidableEq, Repr

/-- Effects accumulated by the invoice capture block: files persisted to the sink
(key and bytes, stored with content type application/pdf), pushData records,
diagnostic artifact keys, and the error that escaped the block, if any. -/
structure CaptureResult where
  savedFiles : List (String × String)
  records : List ResultRecord
  diagnostics : List String
  thrown : Option String
deriving DecidableEq, Repr

/-- The download loop of the browser variant (light-rj main.ts lines 690-855), one
iteration per month match, i being the zero-based match index and remaining the
matches left. A delivered download is saved under invoiceKey with index i+1 and gets
its own pushData record with no inspection of the bytes; a match with no visible
download control captures DEBUG_NO_DL_BTN and PAGE_DUMP diagnostics and the loop
continues; a missing download event throws, aborting the loop. -/
def downloadLoop (code month : String) (outcome : Nat → MatchOutcome) :
    Nat → Nat → CaptureResult
  | _, 0 => ⟨[], [], [], none⟩
  | i, remaining + 1 =>
    match outcome i with
    | MatchOutcome.downloaded bytes =>
      let key := invoiceKey code month (i + 1)
      let rest := downloadLoop code month outcome (i + 1) remaining
      ⟨(key, bytes) :: rest.savedFiles,
        ⟨"downloaded", key, code, month⟩ :: rest.records,
        rest.diagnostics, rest.thrown⟩
    | MatchOutcome.noButton =>
      let rest := downloadLoop code month outcome (i + 1) remaining
      ⟨rest.savedFiles, rest.records,
        ("DEBUG_NO_DL_BTN_" ++ toString (i + 1) ++ ".png") :: "PAGE_DUMP.html" ::
          rest.diagnostics,
        rest.thrown⟩
    | MatchOutcome.eventTimeout afterModal =>
      ⟨[], [], [],
        some (if afterModal then "Download event timeout after modal"
          else "Download event timeout")⟩

/-- Handling of the final month-match count (light-rj main.ts lines 683-856):
count zero captures the BILL_NOT_FOUND screenshot and HTML dump and falls through
without throwing; a positive count enters the download loop. -/
def billCapture (code month : String) (count : Nat) (outcome : Nat → MatchOutcome) :
    CaptureResult :=
  if count = 0 then ⟨[], [], ["BILL_NOT_FOUND.png", "BILL_NOT_FOUND_DUMP.html"], none⟩
  else downloadLoop code month outcome 0 count

/-- Terminal status of a run. -/
inductive RunStatus where
  | succeeded
  | failed (msg : String)
deriving DecidableEq, Repr

/-- Top-level finalization (light-rj main.ts lines 858-868): an error escaping the
worker body reaches Actor.fail; otherwise the run exits with success status. -/
def finalizeRun (r : CaptureResult) : RunStatus :=
  match r.thrown with
  | some m => RunStatus.failed m
  | none => RunStatus.succeeded

/-- C5 counterexample: with zero month matches on both surfaces the capture block
only records the BILL_NOT_FOUND diagnostics and the run finalizes with success
status, contradicting the claimed hard failure. -/
theorem billCapture_c5_cex :
    finalizeRun (billCapture ("9988") ("03/2025") 0 (fun _ => MatchOutcome.noButton)) =
      RunStatus.succeeded
    ∧ (billCapture ("9988") ("03/2025") 0 (fun _ => MatchOutcome.noButton)).diagnostics =
      ["BILL_NOT_FOUND.png", "BILL_NOT_FOUND_DUMP.html"] := by
  decide

/-- C5 amended: when the target month yields zero label matches on both surfaces the
workflow captures the BILL_NOT_FOUND screenshot and HTML dump, performs no download
and pushes no record, but raises no error: the run terminates with success status. -/
theorem billCapture_c5 (code month : String) (outcome : Nat → MatchOutcome) :
    billCapture code month 0 outcome =
      ⟨[], [], ["BILL_NOT_FOUND.png", "BILL_NOT_FOUND_DUMP.html"], none⟩
    ∧ finalizeRun (billCapture code month 0 outcome) = RunStatus.succeeded := by
  constructor <;> rfl

/-- C7: with every match delivering a download, a two-match month produces exactly
the two artifacts with sequence indices 1 and 2, each with its own success record;
in particular installation 9988 with month 03/2025 and one match produces exactly
one success record referencing invoice_9988_03-2025_1.pdf. -/
theorem downloadLoop_c7 (code month : String) (outcome : Nat → MatchOutcome) :
    ((∀ i, i < 2 → ∃ b, outcome i = MatchOutcome.downloaded b) →
      (billCapture code month 2 outcome).records.map (fun r => r.file) =
          [invoiceKey code month 1, invoiceKey code month 2]
        ∧ (billCapture code month 2 outcome).savedFiles.map Prod.fst =
          [invoiceKey code month 1, invoiceKey code month 2]
        ∧ (billCapture code month 2 outcome).thrown = none)
    ∧ (∀ b, outcome 0 = MatchOutcome.downloaded b →
        (billCapture ("9988") ("03/2025") 1 outcome).records =
          [⟨"downloaded", "invoice_9988_03-2025_1.pdf", "9988", "03/2025"⟩]) := by
  constructor
  · intro h
    obtain ⟨b0, hb0⟩ := h 0 (by omega)
    obtain ⟨b1, hb1⟩ := h 1 (by omega)
    refine ⟨?_, ?_, ?_⟩ <;> simp [billCapture, downloadLoop, hb0, hb1]
  · intro b hb
    have hkey : invoiceKey ("9988") ("03/2025") 1 = "invoice_9988_03-2025_1.pdf" := by decide
    simp [billCapture, downloadLoop, hb, hkey]

/-- C7 witness: one delivered match for installation 9988 and month 03/2025 yields
exactly the success record for invoice_9988_03-2025_1.pdf. -/
theorem downloadLoop_c7_witness :
    (billCapture ("9988") ("03/2025") 1 (fun _ => MatchOutcome.downloaded ("%PDF-x"))).records =
      [⟨"downloaded", "invoice_9988_03-2025_1.pdf", "9988", "03/2025"⟩] :=
  (downloadLoop_c7 ("9988") ("03/2025") (fun _ => MatchOutcome.downloaded ("%PDF-x"))).2
    ("%PDF-x") rfl

/-- Diagnostics produced when every remaining match lacks a visible download
control: one numbered DEBUG_NO_DL_BTN screenshot plus a PAGE_DUMP per match. -/
def noButtonDiag : Nat → Nat → List String
  | _, 0 => []
  | i, remaining + 1 =>
    ("DEBUG_NO_DL_BTN_" ++ toString (i + 1) ++ ".png") :: "PAGE_DUMP.html" ::
      noButtonDiag (i + 1) remaining

theorem downloadLoop_noButton (code month : String) (outcome : Nat → MatchOutcome) :
    ∀ remaining i, (∀ j, j < remaining → outcome (i + j) = MatchOutcome.noButton) →
      downloadLoop code month outcome i remaining = ⟨[], [], noButtonDiag i remaining, none⟩ := by
  intro remaining
  induction remaining with
  | zero => intro i h; rfl
  | succ r ih =>
    intro i h
    have h0 : outcome i = MatchOutcome.noButton := by
      have := h 0 (by omega)
      simpa using this
    have hrest := ih (i + 1) (fun j hj => by
      have := h (j + 1) (by omega)
      simpa [Nat.add_assoc, Nat.add_comm 1 j] using this)
    simp [downloadLoop, h0, hrest, noButtonDiag]

theorem noButtonDiag_mem :
    ∀ remaining i j, j < remaining →
      ("DEBUG_NO_DL_BTN_" ++ toString (i + j + 1) ++ ".png") ∈ noButtonDiag i remaining := by
  intro remaining
  induction remaining with
  | zero => intro i j hj; omega
  | succ r ih =>
    intro i j hj
    cases j with
    | zero => simp [noButtonDiag]
    | succ j0 =>
      have := ih (i + 1) j0 (by omega)
      have e : i + 1 + j0 = i + (j0 + 1) := by omega
      rw [e] at this
      simp [noButtonDiag, this]

/-- C9 counterexample: a single match with no visible download control captures the
per-match diagnostics, yet the run finalizes with success status, contradicting the
claimed terminal DownloadButtonNotFound failure. -/
theorem downloadLoop_c9_cex :
    (billCapture ("5544") ("07/2024") 1 (fun _ => MatchOutcome.noButton)).diagnostics =
      ["DEBUG_NO_DL_BTN_1.png", "PAGE_DUMP.html"]
    ∧ finalizeRun (billCapture ("5544") ("07/2024") 1 (fun _ => MatchOutcome.noButton)) =
      RunStatus.succeeded := by
  decide

/-- C9 amended: a match for which all three locator strategies yield no visible
control is non-fatal per match: the loop captures its numbered DEBUG_NO_DL_BTN
screenshot plus PAGE_DUMP and continues, every unresolved match contributing its own
diagnostics; but no error is raised at the end of the loop, and the overall run
terminates with success status even when every match remained unresolved. -/
theorem downloadLoop_c9 (code month : String) (count : Nat) (outcome : Nat → MatchOutcome)
    (h : ∀ j, j < count → outcome j = MatchOutcome.noButton) :
    (billCapture code month count outcome).records = []
    ∧ (billCapture code month count outcome).savedFiles = []
    ∧ (billCapture code month count outcome).thrown = none
    ∧ finalizeRun (billCapture code month count outcome) = RunStatus.succeeded
    ∧ ∀ j, j < count →
        ("DEBUG_NO_DL_BTN_" ++ toString (j + 1) ++ ".png") ∈
          (billCapture code month count outcome).diagnostics := by
  by_cases hc : count = 0
  · subst hc
    exact ⟨rfl, rfl, rfl, rfl, fun j hj => by omega⟩
  · have hloop := downloadLoop_noButton code month outcome count 0 (fun j hj => by
      have := h j hj
      simpa using this)
    have hbc : billCapture code month count outcome =
        ⟨[], [], noButtonDiag 0 count, none⟩ := by
      simp [billCapture, hc, hloop]
    rw [hbc]
    refine ⟨rfl, rfl, rfl, rfl, fun j hj => ?_⟩
    have := noButtonDiag_mem count 0 j hj
    simpa using this

/-- C9 witness: two unresolved matches leave their two numbered diagnostics and the
run still succeeds. -/
theorem downloadLoop_c9_witness :
    finalizeRun (billCapture ("5544") ("07/2024") 2 (fun _ => MatchOutcome.noButton)) =
      RunStatus.succeeded
    ∧ ("DEBUG_NO_DL_BTN_2.png") ∈
      (billCapture ("5544") ("07/2024") 2 (fun _ => MatchOutcome.noButton)).diagnostics := by
  have h := downloadLoop_c9 ("5544") ("07/2024") 2 (fun _ => MatchOutcome.noButton)
    (fun _ _ => rfl)
  exact ⟨h.2.2.2.1, by simpa using h.2.2.2.2 1 (by omega)⟩

/-- What one HTTP GET of a candidate download URL yields: the response body (bytes
read as text; the PDF check compares the first five bytes with the signature) and
the first further PDF link cheerio finds in the body when it has to be treated as an
intermediate HTML page. -/
structure DlResponse where
  body : String
  pdfLink : Option String
deriving DecidableEq, Repr

/-- JS String.startsWith as a list prefix test. -/
def strStartsWith (s pre : String) : Bool :=
  pre.toList.isPrefixOf s.toList

/-- Outcome of the HTTP download routine. -/
inductive DlOutcome where
  | saved (key : String) (bytes : String)
  | errored (msg : String)
deriving DecidableEq, Repr

/-- downloadPdf of the HTTP variant (light-rj-http main.ts lines 557-629): an
AJAX-prefixed URL throws; a body starting with the PDF signature is persisted under
invoiceKey with index 1; any other body is treated as an intermediate page, saved as
a debug artifact, and its first PDF-ish link (absolutized unless already http) is
followed recursively; with no such link the routine throws the format error. fuel
bounds the recursion through intermediate pages: the source recurses without a
bound, so every terminating source run is captured by a large enough fuel. -/
def downloadPdfHttp (fetch : String → DlResponse) (code month : String) :
    String → Nat → DlOutcome
  | _, 0 => DlOutcome.errored ("recursion budget exhausted")
  | url, fuel + 1 =>
    if strStartsWith url ("AJAX:") then
      DlOutcome.errored ("AJAX download not implemented yet. Need to capture the exact POST flow.")
    else
      let resp := fetch url
      if resp.body.take 5 = "%PDF-" then
        DlOutcome.saved (invoiceKey code month 1) resp.body
      else
        match resp.pdfLink with
        | some link =>
          downloadPdfHttp fetch code month
            (if strStartsWith link ("http") then link
              else "https://agenciavirtual.light.com.br" ++ link) fuel
        | none =>
          DlOutcome.errored ("Downloaded content is not a PDF. Check DEBUG_DOWNLOAD_RESPONSE.html")

/-- C6 counterexample: the browser variant persists a downloaded stream as the final
invoice artifact without any signature check, here an HTML body that does not start
with the PDF signature. -/
theorem downloadPdf_c6_cex :
    (billCapture ("7001") ("01/2024") 1 (fun _ => MatchOutcome.downloaded ("<html>"))).savedFiles =
      [("invoice_7001_01-2024_1.pdf", "<html>")]
    ∧ ("<html>").take 5 ≠ "%PDF-" := by
  decide

/-- C6 amended: the HTTP variant never persists a byte stream whose first five bytes
are not the PDF signature — whatever it saves starts with that signature, every
non-PDF body being either resolved through a further PDF link or turned into an
error; the browser variant performs no such check. -/
theorem downloadPdf_c6 (fetch : String → DlResponse) (code month : String) :
    ∀ fuel url key bytes,
      downloadPdfHttp fetch code month url fuel = DlOutcome.saved key bytes →
      bytes.take 5 = "%PDF-" := by
  intro fuel
  induction fuel with
  | zero =>
    intro url key bytes h
    simp [downloadPdfHttp] at h
  | succ f ih =>
    intro url key bytes h
    by_cases ha : strStartsWith url ("AJAX:") = true
    · simp [downloadPdfHttp, ha] at h
    · by_cases hp : (fetch url).body.take 5 = "%PDF-"
      · have : bytes = (fetch url).body := by
          simp [downloadPdfHttp, ha, hp] at h
          exact h.2.symm
        rw [this]; exact hp
      · cases hl : (fetch url).pdfLink with
        | none => simp [downloadPdfHttp, ha, hp, hl] at h
        | some link =>
          have hrec : downloadPdfHttp fetch code month url (f + 1) =
              downloadPdfHttp fetch code month
                (if strStartsWith link ("http") then link
                  else "https://agenciavirtual.light.com.br" ++ link) f := by
            simp [downloadPdfHttp, ha, hp, hl]
          rw [hrec] at h
          exact ih _ key bytes h

/-- C6 witness: a direct PDF response is saved, and by the theorem its bytes start
with the signature. -/
theorem downloadPdf_c6_witness :
    ("%PDF-1.7 body").take 5 = "%PDF-" :=
  downloadPdf_c6 (fun _ => ⟨"%PDF-1.7 body", none⟩) ("7001") ("01/2024") 1
    ("https://x.example/a") (invoiceKey ("7001") ("01/2024") 1) ("%PDF-1.7 body")
    (by decide)

/-- The two bill-listing surfaces. -/
inductive Surface where
  | openBills
  | paidBills
deriving DecidableEq, Repr

/-- Winner of the initial bounded race on the open-bills surface
(light-rj main.ts lines 472-479): the bill-listing container, the
account-is-current message, or neither within the bound. -/
inductive RaceOutcome where
  | bills
  | upToDate
  | neither
deriving DecidableEq, Repr

/-- Observable discovery steps: a page navigation to a surface, or an installation
lookup performed on a surface. -/
inductive DiscoveryEvent where
  | navigate (s : Surface)
  | lookup (s : Surface)
deriving DecidableEq, Repr

/-- Surface selection and installation lookup (light-rj main.ts lines 457-514):
navigate to the open-bills surface, race the listing container against the
account-is-current message, switch to the paid-bills surface when the latter wins,
then look the installation up on the current surface; when the lookup fails on the
open-bills surface and the account was not reported current, fall back to the
paid-bills surface and repeat the lookup; found returns the surface, otherwise the
InstallationNotFound error propagates. The trace lists the events in order. -/
def discoveryTrace (race : RaceOutcome) (foundOn : Surface → Bool) :
    List DiscoveryEvent × Option Surface :=
  match race with
  | RaceOutcome.upToDate =>
    ([DiscoveryEvent.navigate Surface.openBills, DiscoveryEvent.navigate Surface.paidBills,
        DiscoveryEvent.lookup Surface.paidBills],
      if foundOn Surface.paidBills then some Surface.paidBills else none)
  | _ =>
    if foundOn Surface.openBills then
      ([DiscoveryEvent.navigate Surface.openBills, DiscoveryEvent.lookup Surface.openBills],
        some Surface.openBills)
    else
      ([DiscoveryEvent.navigate Surface.openBills, DiscoveryEvent.lookup Surface.openBills,
          DiscoveryEvent.navigate Surface.paidBills, DiscoveryEvent.lookup Surface.paidBills],
        if foundOn Surface.paidBills then some Surface.paidBills else none)

/-- C8: whenever the account-is-current signal wins the initial race, discovery
navigates to the paid-bills surface before any installation lookup: the trace is
exactly navigate open, navigate paid, lookup paid, so no lookup ever happens on the
open-bills surface and the unique lookup is preceded by the paid-bills navigation. -/
theorem discoveryTrace_c8 (foundOn : Surface → Bool) :
    (discoveryTrace RaceOutcome.upToDate foundOn).1 =
      [DiscoveryEvent.navigate Surface.openBills, DiscoveryEvent.navigate Surface.paidBills,
        DiscoveryEvent.lookup Surface.paidBills]
    ∧ DiscoveryEvent.lookup Surface.openBills ∉ (discoveryTrace RaceOutcome.upToDate foundOn).1
    ∧ ∀ s, (discoveryTrace RaceOutcome.upToDate foundOn).2 = some s → s = Surface.paidBills := by
  refine ⟨rfl, by simp [discoveryTrace], fun s hs => ?_⟩
  by_cases h : foundOn Surface.paidBills = true
  · simp [discoveryTrace, h] at hs
    exact hs.symm
  · simp [discoveryTrace, Bool.eq_false_iff.mpr h] at hs

/-- C8 witness: with the installation present on the paid surface, the trace after an
account-is-current race has no lookup on the open-bills surface and the lookup
succeeds on the paid-bills surface. -/
theorem discoveryTrace_c8_witness :
    DiscoveryEvent.lookup Surface.openBills ∉
      (discoveryTrace RaceOutcome.upToDate (fun _ => true)).1
    ∧ Surface.paidBills = Surface.paidBills :=
  ⟨(discoveryTrace_c8 (fun _ => true)).2.1,
    (discoveryTrace_c8 (fun _ => true)).2.2 Surface.paidBills rfl⟩

/-- Truthiness of an optional string input field, as JS sees it: absent and the
empty string are falsy. -/
def jsTruthy : Option String → Bool
  | none => false
  | some s => !s.isEmpty

/-- Post-login behaviour of the browser variant (light-rj main.ts lines 452-455 and
858-868): the invoice capture block runs only when installationCode and
referenceMonth are both truthy; otherwise the worker falls through to the
finalization and exits with success. The Boolean records whether capture ran. -/
structure BrowserPostLogin where
  captureRan : Bool
  status : RunStatus
deriving DecidableEq, Repr

def browserPostLogin (installationCode referenceMonth : Option String)
    (capture : CaptureResult) : BrowserPostLogin :=
  if jsTruthy installationCode && jsTruthy referenceMonth then
    ⟨true, finalizeRun capture⟩
  else ⟨false, RunStatus.succeeded⟩

/-- Post-login step of the HTTP variant (light-rj-http main.ts lines 346-350): with
either parameter missing it pushes a login_success record and exits; otherwise it
proceeds to bill discovery. -/
inductive HttpPostLoginStep where
  | loginOnlyExit (recordStatus : String)
  | proceedToCapture
deriving DecidableEq, Repr

def httpPostLogin (installationCode referenceMonth : Option String) : HttpPostLoginStep :=
  if !jsTruthy installationCode || !jsTruthy referenceMonth then
    HttpPostLoginStep.loginOnlyExit ("login_success")
  else HttpPostLoginStep.proceedToCapture

/-- C10: when exactly one of installationCode and referenceMonth is truthy, neither
variant raises an input error: the browser variant skips invoice capture entirely
and the run exits with success status, and the HTTP variant pushes a login_success
record and exits. -/
theorem partialParams_c10 (installationCode referenceMonth : Option String)
    (capture : CaptureResult)
    (h : jsTruthy installationCode ≠ jsTruthy referenceMonth) :
    browserPostLogin installationCode referenceMonth capture =
      ⟨false, RunStatus.succeeded⟩
    ∧ httpPostLogin installationCode referenceMonth =
      HttpPostLoginStep.loginOnlyExit ("login_success") := by
  cases h1 : jsTruthy installationCode <;> cases h2 : jsTruthy referenceMonth <;>
    simp_all [browserPostLogin, httpPostLogin]

/-- C10 witness: installationCode 9988 with referenceMonth absent yields a success
exit with no capture in the browser variant. -/
theorem partialParams_c10_witness :
    browserPostLogin (some ("9988")) none ⟨[], [], [], none⟩ =
      ⟨false, RunStatus.succeeded⟩
    ∧ httpPostLogin (some ("9988")) none = HttpPostLoginStep.loginOnlyExit ("login_success") :=
  partialParams_c10 (some ("9988")) none ⟨[], [], [], none⟩ (by decide)

end RpaBots
